import Mathlib

/-
  Verification development for the cross-block series frame iteration engine
  (package `tile`, file `series_block_iterator.go`).

  The orchestrator `seriesBlockIter` and its operations are embedded from the
  Go source.  External collaborators (the per-series reader, the recorder
  backends, the cross-block iterator and the series frame iterator) are only
  visible here through the interfaces the orchestrator uses; where a property
  depends on their behaviour, the definition is modelled from the spec and
  says so in its doc comment.

  Machine conventions: Go `error` values become `Option Err` with `none` for
  nil; Go `int64`-nanosecond timestamps (`xtime.UnixNano`) become `Int`;
  object identity of heap-allocated collaborators is tracked by an explicit
  `ident : Nat` field that allocation fixes and `Reset` preserves.
-/

namespace Tile

/-- Error values: `none` models a nil Go error, `some e` a non-nil one. -/
abbrev Err := Nat

/-- Nanosecond timestamps (`xtime.UnixNano`, an int64 in the source). -/
abbrev UnixNano := Int

/-- A single datapoint `{timestamp, value}`; the float64 value is opaque to
every claim here and is modelled as an integer payload. -/
structure Datapoint where
  timestamp : UnixNano
  value : Int
  deriving DecidableEq

/-- Modelled from the spec: a Block Record is an opaque handle to one encoded
segment — a readable cursor over datapoints.  `points` are the datapoints the
cursor yields; `readErr` is the decode/read error the cursor reports after
them, if any (§4.1: decoding errors on an individual block cursor are latched
by the cross-block iterator). -/
structure BlockRecord where
  points : List Datapoint
  readErr : Option Err
  deriving DecidableEq

/-- One series yielded by the external per-series reader: its id, tags and
ordered block records (§6, `Current() -> (id, tagIterator, []BlockRecord)`).
Ids and tag iterators are opaque handles, modelled as naturals. -/
structure SeriesEntry where
  sid : Nat
  stags : Nat
  blockRecords : List BlockRecord
  deriving DecidableEq

/-- The external per-series reader (`fs.CrossBlockReader`), seen through the
interface of §6: `Next`, `Current`, `Err`.  `series` is the stream of series
it will still yield; `finalErr` is the sticky error its `Err()` reports after
a false `Next()` (nil for plain exhaustion); `done` latches exhaustion. -/
structure CrossBlockReader where
  series : List SeriesEntry
  cur : Option SeriesEntry
  finalErr : Option Err
  done : Bool
  deriving DecidableEq

/-- Reader `Next()`: advance to the next series; false on exhaustion. -/
def CrossBlockReader.next (r : CrossBlockReader) : Bool × CrossBlockReader :=
  match r.series with
  | [] => (false, { r with done := true })
  | s :: rest => (true, { r with series := rest, cur := some s })

/-- Reader `Current()`: the current series' id, tags and block records. -/
def CrossBlockReader.current (r : CrossBlockReader) : Nat × Nat × List BlockRecord :=
  match r.cur with
  | some s => (s.sid, s.stags, s.blockRecords)
  | none => (0, 0, [])

/-- Reader `Err()`: sticky error after a false `Next()` (§6). -/
def CrossBlockReader.errFn (r : CrossBlockReader) : Option Err :=
  if r.done then r.finalErr else none

/-- The recorder capability (`recorder` in the source).  `columnar` records
which backend was chosen (`newDatapointRecorder`, arrow/arena-backed, vs
`newFlatDatapointRecorder`, flat).  `ident` is the object's identity, fixed
at allocation.  `released` and `releaseCount` track arena release: the spec
(§4.2) specifies `Release()` as idempotent, so an actual arena release
happens only on the first call. -/
structure Recorder where
  ident : Nat
  columnar : Bool
  released : Bool
  releaseCount : Nat
  deriving DecidableEq

/-- `newDatapointRecorder(memory.NewGoAllocator())`: the columnar,
arena-backed recorder backend. -/
def newDatapointRecorder (ident : Nat) : Recorder :=
  { ident := ident, columnar := true, released := false, releaseCount := 0 }

/-- `newFlatDatapointRecorder()`: the flat recorder backend. -/
def newFlatDatapointRecorder (ident : Nat) : Recorder :=
  { ident := ident, columnar := false, released := false, releaseCount := 0 }

/-- Modelled from the spec: `recorder.release()` returns backing storage to
its origin and is idempotent (§4.2); an actual arena release is performed
only if one has not happened yet.  Its Go signature returns no error. -/
def Recorder.release (r : Recorder) : Recorder :=
  if r.released then r
  else { r with released := true, releaseCount := r.releaseCount + 1 }

/-- The cross-block iterator (`fs.CrossBlockIterator`).  `ident` is object
identity fixed at allocation; `records` are the block records still being
merged; `cur` the datapoint at the cursor; `err` the latched decode error;
`closed` tracks `Close()`. -/
structure CrossBlockIterator where
  ident : Nat
  records : List BlockRecord
  cur : Option Datapoint
  err : Option Err
  closed : Bool
  deriving DecidableEq

/-- `fs.NewCrossBlockIterator(pool)`: a fresh cross-block iterator; the
decoder pool is an opaque handle and does not appear in the state. -/
def NewCrossBlockIterator (ident : Nat) : CrossBlockIterator :=
  { ident := ident, records := [], cur := none, err := none, closed := false }

/-- `CrossBlockIterator.Reset(blockRecords)`: discards prior merge state and
begins merging the given records (§4.1); object identity is preserved. -/
def CrossBlockIterator.reset (c : CrossBlockIterator) (recs : List BlockRecord) :
    CrossBlockIterator :=
  { c with records := recs, cur := none, err := none }

/-- Outcome of one advance over the remaining block records. -/
inductive CBStep where
  | exhausted
  | errored (e : Err)
  | point (p : Datapoint) (rest : List BlockRecord)
  deriving DecidableEq

/-- Modelled from the spec: one advance of the single-pass concatenating merge
of §4.1 — empty records are skipped without error; a record whose cursor
reports a decode error surfaces that error. -/
def cbStep : List BlockRecord → CBStep
  | [] => .exhausted
  | r :: rs =>
    match r.points with
    | [] =>
      match r.readErr with
      | some e => .errored e
      | none => cbStep rs
    | p :: ps => .point p ({ points := ps, readErr := r.readErr } :: rs)

/-- Modelled from the spec: `CrossBlockIterator.Next()` (§4.1) — advances to
the next datapoint in order across the records, latches the first decode
error in `err`, returns false on exhaustion or error. -/
def CrossBlockIterator.next (c : CrossBlockIterator) : Bool × CrossBlockIterator :=
  if c.err.isSome then (false, c)
  else
    match cbStep c.records with
    | .exhausted => (false, c)
    | .errored e => (false, { c with err := some e })
    | .point p rest => (true, { c with cur := some p, records := rest })

/-- `CrossBlockIterator.Err()`: the latched decode/read error (§4.1). -/
def CrossBlockIterator.errFn (c : CrossBlockIterator) : Option Err := c.err

/-- `CrossBlockIterator.Close()`: releases the per-block cursors; its Go
signature returns no error. -/
def CrossBlockIterator.close (c : CrossBlockIterator) : CrossBlockIterator :=
  { c with closed := true }

/-- The series frame iterator (`SeriesFrameIterator`), as the orchestrator
uses it: `ident` is object identity fixed at allocation; `recorderIdent` the
recorder bound at allocation; `start`, `step`, `sourceIdent` the windowing
state bound by `Reset`; `closed` tracks `Close()`; `closeErr` the resource
release error its first `Close()` would report (§7). -/
structure SeriesFrameIterator where
  ident : Nat
  recorderIdent : Nat
  start : UnixNano
  step : UnixNano
  sourceIdent : Option Nat
  closed : Bool
  closeErr : Option Err
  deriving DecidableEq

/-- `newSeriesFrameIterator(recorder)`: a fresh frame iterator bound to the
given recorder, not yet positioned on any series. -/
def newSeriesFrameIterator (ident : Nat) (r : Recorder) : SeriesFrameIterator :=
  { ident := ident, recorderIdent := r.ident, start := 0, step := 0,
    sourceIdent := none, closed := false, closeErr := none }

/-- `SeriesFrameIterator.Reset(start, step, source)`: rebinds the windowing
state to a new series without reallocating (§4.3); identity and the bound
recorder are preserved. -/
def SeriesFrameIterator.reset (f : SeriesFrameIterator) (start step : UnixNano)
    (sourceIdent : Nat) : SeriesFrameIterator :=
  { f with start := start, step := step, sourceIdent := some sourceIdent }

/-- Modelled from the spec: `SeriesFrameIterator.Close()` releases the
Recorder and any buffered state (§4.3) and reports a resource release error
through its return value (§7); a second close is a no-op returning nil
(§4.4: `Close()` is idempotent in effect). -/
def SeriesFrameIterator.close (f : SeriesFrameIterator) (r : Recorder) :
    SeriesFrameIterator × Recorder × Option Err :=
  if f.closed then (f, r, none)
  else ({ f with closed := true }, r.release, f.closeErr)

/-- `Options` for `NewSeriesBlockIterator` (§6): `UseArrow` selects the
recorder backend; `Start` and `FrameSize` configure the windowing; the
decoder pool is an opaque handle. -/
structure Options where
  UseArrow : Bool
  Start : UnixNano
  FrameSize : UnixNano
  ReaderIteratorPool : Nat
  deriving DecidableEq

/-- The orchestrator state (`seriesBlockIter` in the source): the external
reader, the sticky `err`/`exhausted` pair, the configured `start`/`step`,
and the owned recorder, frame iterator, cross-block iterator, current tags
and current id (`none` models a nil Go interface value). -/
structure SeriesBlockIter where
  reader : CrossBlockReader
  err : Option Err
  exhausted : Bool
  step : UnixNano
  start : UnixNano
  recorder : Recorder
  iter : SeriesFrameIterator
  blockIter : CrossBlockIterator
  tags : Option Nat
  id : Option Nat
  deriving DecidableEq

/-- Identity assigned to the recorder allocated by `NewSeriesBlockIterator`. -/
def recorderIdent : Nat := 0

/-- Identity assigned to the frame iterator allocated by
`NewSeriesBlockIterator`. -/
def frameIterIdent : Nat := 1

/-- Identity assigned to the cross-block iterator allocated by
`NewSeriesBlockIterator`. -/
def blockIterIdent : Nat := 2

/-- `NewSeriesBlockIterator(reader, opts)`: chooses the recorder backend from
`opts.UseArrow`, allocates the frame iterator over that recorder and the
cross-block iterator over the decoder pool, and returns the iterator with a
nil error (the source performs no validation and has no error path). -/
def NewSeriesBlockIterator (reader : CrossBlockReader) (opts : Options) :
    SeriesBlockIter × Option Err :=
  let recorder : Recorder :=
    if opts.UseArrow then newDatapointRecorder recorderIdent
    else newFlatDatapointRecorder recorderIdent
  ({ reader := reader,
     err := none,
     exhausted := false,
     start := opts.Start,
     step := opts.FrameSize,
     recorder := recorder,
     iter := newSeriesFrameIterator frameIterIdent recorder,
     blockIter := NewCrossBlockIterator blockIterIdent,
     tags := none,
     id := none }, none)

/-- `seriesBlockIter.Next()`: returns false at once when `exhausted` or `err`
is set; otherwise advances the reader — on reader failure latches
`exhausted` and `err := reader.Err()` and returns false; on success takes
`(id, tags, blockRecords)` from `reader.Current()`, resets the cross-block
iterator with the records, resets the frame iterator with the configured
start and step over that cross-block iterator, and returns true. -/
def SeriesBlockIter.next (b : SeriesBlockIter) : Bool × SeriesBlockIter :=
  if b.exhausted || b.err.isSome then (false, b)
  else
    match b.reader.next with
    | (false, r') => (false, { b with reader := r', exhausted := true, err := r'.errFn })
    | (true, r') =>
      let (i, t, recs) := r'.current
      let bi := b.blockIter.reset recs
      let fi := b.iter.reset b.start b.step bi.ident
      (true, { b with reader := r', id := some i, tags := some t,
                      blockIter := bi, iter := fi })

/-- `seriesBlockIter.Current()`: returns `(b.iter, b.id, b.tags)`. -/
def SeriesBlockIter.current (b : SeriesBlockIter) :
    SeriesFrameIterator × Option Nat × Option Nat :=
  (b.iter, b.id, b.tags)

/-- `seriesBlockIter.Err()`: returns `b.err`. -/
def SeriesBlockIter.errFn (b : SeriesBlockIter) : Option Err := b.err

/-- `seriesBlockIter.Close()`: releases the recorder, closes the cross-block
iterator, closes the frame iterator (which itself releases the recorder
again, harmlessly by idempotence) and returns the frame iterator's close
error — three straight-line statements, no early return. -/
def SeriesBlockIter.close (b : SeriesBlockIter) : SeriesBlockIter × Option Err :=
  let r1 := b.recorder.release
  let bi := b.blockIter.close
  let (fi, r2, e) := b.iter.close r1
  ({ b with recorder := r2, blockIter := bi, iter := fi }, e)

/-- The first non-nil error among a list of error results. -/
def firstSome (l : List (Option Err)) : Option Err :=
  l.findSome? id

/-- Modelled from the spec: the frame iterator's `Err()` propagates the
latched error of its datapoint source, the cross-block iterator (§4.1, §7);
stated at the orchestrator, whose frame iterator reads from `b.blockIter`. -/
def seriesFrameErr (b : SeriesBlockIter) : Option Err :=
  b.blockIter.err

/-- Modelled from the spec: the frame index of a datapoint at timestamp `t`
for configured start `T0` and step `S` is `floor((t - T0) / S)` (§3,
invariants); `Int` division here is Euclidean, which agrees with floor for
positive `S`. -/
def frameIndexQ (start step t : UnixNano) : Int :=
  (t - start) / step

/-- `n` further `Next()` calls, keeping only the state. -/
def nextN : Nat → SeriesBlockIter → SeriesBlockIter
  | 0, b => b
  | n + 1, b => nextN n (b.next).2

/-- A concrete block record with one datapoint and a clean cursor. -/
def sampleRecords : List BlockRecord := [{ points := [⟨5, 1⟩], readErr := none }]

/-- A concrete series entry. -/
def sampleEntry : SeriesEntry := { sid := 11, stags := 12, blockRecords := sampleRecords }

/-- A concrete reader yielding exactly one series and then clean exhaustion. -/
def sampleReader : CrossBlockReader :=
  { series := [sampleEntry], cur := none, finalErr := none, done := false }

/-- Concrete construction options (columnar backend, start 0, step 10). -/
def sampleOpts : Options :=
  { UseArrow := true, Start := 0, FrameSize := 10, ReaderIteratorPool := 0 }

/-- A freshly constructed iterator over `sampleReader`. -/
def sampleIter : SeriesBlockIter := (NewSeriesBlockIterator sampleReader sampleOpts).1

/-- A reader that is already exhausted and reports error 5 from `Err()`. -/
def emptyErrReader : CrossBlockReader :=
  { series := [], cur := none, finalErr := some 5, done := false }

/-- A fresh iterator whose first `Next()` hits reader failure with error 5. -/
def erroredIter : SeriesBlockIter := (NewSeriesBlockIterator emptyErrReader sampleOpts).1

/-- A series whose only block record's cursor reports decode error 7 at once. -/
def c2Entry : SeriesEntry :=
  { sid := 1, stags := 2, blockRecords := [{ points := [], readErr := some 7 }] }

/-- A reader yielding that one decode-erroring series. -/
def c2Reader : CrossBlockReader :=
  { series := [c2Entry], cur := none, finalErr := none, done := false }

/-- The orchestrator positioned on the decode-erroring series by one
successful `Next()`. -/
def c2Positioned : SeriesBlockIter :=
  (((NewSeriesBlockIterator c2Reader sampleOpts).1).next).2

/-- The state after the caller drives the frame iterator once, which advances
the shared cross-block iterator and latches decode error 7 in it. -/
def c2State : SeriesBlockIter :=
  { c2Positioned with blockIter := (c2Positioned.blockIter.next).2 }

/-- Construction options with an invalid frame size of 0. -/
def c4Opts : Options :=
  { UseArrow := false, Start := 0, FrameSize := 0, ReaderIteratorPool := 0 }

/- Helper lemmas. -/

/-- A latched iterator's `Next()` returns false and leaves the state alone. -/
theorem next_of_latched (b : SeriesBlockIter)
    (h : (b.exhausted || b.err.isSome) = true) : b.next = (false, b) := by
  simp [SeriesBlockIter.next, h]

/-- Whenever `Next()` returns false, the resulting state is latched. -/
theorem next_false_latches (b : SeriesBlockIter) (h : (b.next).1 = false) :
    ((b.next).2.exhausted || (b.next).2.err.isSome) = true := by
  by_cases hg : (b.exhausted || b.err.isSome) = true
  · rw [next_of_latched b hg]
    exact hg
  · rcases hs : b.reader.series with _ | ⟨e, rest⟩
    · simp [SeriesBlockIter.next, CrossBlockReader.next, hg, hs]
    · exfalso
      simp [SeriesBlockIter.next, CrossBlockReader.next, hg, hs] at h

/-- A latched state is a fixed point of any number of `Next()` calls. -/
theorem nextN_fixed (b : SeriesBlockIter)
    (h : (b.exhausted || b.err.isSome) = true) (n : Nat) : nextN n b = b := by
  induction n with
  | zero => rfl
  | succ n ih =>
    show nextN n (b.next).2 = b
    rw [next_of_latched b h]
    exact ih

/-- C1: once `Next()` has returned false — the reader reported exhaustion or
error — every subsequent `Next()` call (after any number `n` of further
calls) also returns false, and `Err()` returns the same latched error. -/
theorem c1_latched_termination (b : SeriesBlockIter)
    (h : (b.next).1 = false) (n : Nat) :
    ((nextN n (b.next).2).next).1 = false ∧
    (nextN n (b.next).2).errFn = (b.next).2.errFn := by
  have hg := next_false_latches b h
  rw [nextN_fixed (b.next).2 hg n]
  exact ⟨by rw [next_of_latched _ hg], rfl⟩

/-- C1 witness: a first `Next()` over an exhausted erroring reader returns
false, and two calls later `Next()` is still false with the same `Err()`. -/
theorem c1_latched_termination_witness :
    (erroredIter.next).1 = false ∧
    (((nextN 2 (erroredIter.next).2).next).1 = false ∧
     (nextN 2 (erroredIter.next).2).errFn = (erroredIter.next).2.errFn) :=
  ⟨by decide, c1_latched_termination erroredIter (by decide) 2⟩

/-- C2 counterexample: on `c2State` — reached by constructing over a series
whose block cursor decode-errors, advancing once, and letting the caller's
frame-driven pull latch the decode error in the cross-block iterator — the
cross-block iterator's `Err()` is non-nil while the orchestrator's `Err()`
is nil, refuting the claim that `SeriesBlockIterator.Err()` is non-nil
whenever the cross-block or frame iterator's `Err()` is. -/
theorem c2_error_observability_counterexample :
    (c2State.blockIter.errFn ≠ none ∨ seriesFrameErr c2State ≠ none) ∧
    c2State.errFn = none := by decide

/-- C2 amended: a cross-block read/decode error is observable through the
cross-block iterator's own `Err()` and the frame iterator's `Err()`, but
the orchestrator's `Err()` returns only the error latched from the external
reader (`b.err`) and so can remain nil. -/
theorem c2_error_observability (b : SeriesBlockIter)
    (h : b.blockIter.err ≠ none) :
    b.blockIter.errFn ≠ none ∧ seriesFrameErr b ≠ none ∧ b.errFn = b.err :=
  ⟨h, h, rfl⟩

/-- C2 witness: the amended observability statement holds at `c2State`. -/
theorem c2_error_observability_witness :
    c2State.blockIter.err ≠ none ∧
    (c2State.blockIter.errFn ≠ none ∧ seriesFrameErr c2State ≠ none ∧
     c2State.errFn = c2State.err) :=
  ⟨by decide, c2_error_observability c2State (by decide)⟩

/-- C4 counterexample: with `FrameSize = 0 ≤ 0`, `NewSeriesBlockIterator`
still returns a nil error — the configuration is not rejected. -/
theorem c4_construction_counterexample :
    c4Opts.FrameSize ≤ 0 ∧
    (NewSeriesBlockIterator sampleReader c4Opts).2 = none := by decide

/-- C4 amended: `NewSeriesBlockIterator` performs no validation of the
options and always returns a nil error; the step is set to the given
`FrameSize` unchecked, even when it is ≤ 0. -/
theorem c4_construction_no_validation (reader : CrossBlockReader) (opts : Options) :
    (NewSeriesBlockIterator reader opts).2 = none ∧
    (NewSeriesBlockIterator reader opts).1.step = opts.FrameSize :=
  ⟨rfl, rfl⟩

/-- Two error-free release results leave the third as the first non-nil. -/
theorem firstSome_two_none (x : Option Err) : firstSome [none, none, x] = x := by
  cases x <;> rfl

/-- C3: from any state, `Close()` releases the recorder, closes the
cross-block iterator and closes the frame iterator — all three attempted,
with no early return — and returns the first non-nil error among the three
release results: the recorder release and the cross-block close report no
error by signature, so that is the frame iterator's close result. -/
theorem c3_close_releases_all (b : SeriesBlockIter) :
    (b.close).1.recorder.released = true ∧
    (b.close).1.blockIter.closed = true ∧
    (b.close).1.iter.closed = true ∧
    (b.close).2 =
      firstSome [none, none, if b.iter.closed then none else b.iter.closeErr] := by
  by_cases hf : b.iter.closed
  · by_cases hr : b.recorder.released
    · simp [SeriesBlockIter.close, SeriesFrameIterator.close, Recorder.release,
            CrossBlockIterator.close, firstSome_two_none, hf, hr]
    · simp [SeriesBlockIter.close, SeriesFrameIterator.close, Recorder.release,
            CrossBlockIterator.close, firstSome_two_none, hf, hr]
  · by_cases hr : b.recorder.released
    · simp [SeriesBlockIter.close, SeriesFrameIterator.close, Recorder.release,
            CrossBlockIterator.close, firstSome_two_none, hf, hr]
    · simp [SeriesBlockIter.close, SeriesFrameIterator.close, Recorder.release,
            CrossBlockIterator.close, firstSome_two_none, hf, hr]

/-- C5: when the reader has a next series `e`, `Next()` returns true, resets
the same (identity-preserved) cross-block iterator with `e`'s block records,
resets the same frame iterator with the configured start and step and that
cross-block iterator as its source, sets the id and tags from the reader's
`Current()`, and `Current()` then returns exactly that frame iterator, id
and tag iterator. -/
theorem c5_next_success (b : SeriesBlockIter) (e : SeriesEntry)
    (rest : List SeriesEntry) (hx : b.exhausted = false) (he : b.err = none)
    (hs : b.reader.series = e :: rest) :
    (b.next).1 = true ∧
    (b.next).2.blockIter = b.blockIter.reset e.blockRecords ∧
    (b.next).2.iter = b.iter.reset b.start b.step b.blockIter.ident ∧
    (b.next).2.iter.ident = b.iter.ident ∧
    (b.next).2.iter.recorderIdent = b.iter.recorderIdent ∧
    (b.next).2.blockIter.ident = b.blockIter.ident ∧
    (b.next).2.iter.sourceIdent = some b.blockIter.ident ∧
    (b.next).2.iter.start = b.start ∧
    (b.next).2.iter.step = b.step ∧
    (b.next).2.id = some e.sid ∧
    (b.next).2.tags = some e.stags ∧
    (b.next).2.current = ((b.next).2.iter, some e.sid, some e.stags) := by
  simp [SeriesBlockIter.next, CrossBlockReader.next, hs, hx, he,
        CrossBlockReader.current, CrossBlockIterator.reset,
        SeriesFrameIterator.reset, SeriesBlockIter.current]

/-- C5 witness: the reset behaviour on a concrete one-series reader. -/
theorem c5_next_success_witness :
    (sampleIter.exhausted = false ∧ sampleIter.err = none ∧
     sampleIter.reader.series = sampleEntry :: []) ∧
    ((sampleIter.next).1 = true ∧
     (sampleIter.next).2.blockIter = sampleIter.blockIter.reset sampleEntry.blockRecords ∧
     (sampleIter.next).2.iter =
       sampleIter.iter.reset sampleIter.start sampleIter.step sampleIter.blockIter.ident ∧
     (sampleIter.next).2.iter.ident = sampleIter.iter.ident ∧
     (sampleIter.next).2.iter.recorderIdent = sampleIter.iter.recorderIdent ∧
     (sampleIter.next).2.blockIter.ident = sampleIter.blockIter.ident ∧
     (sampleIter.next).2.iter.sourceIdent = some sampleIter.blockIter.ident ∧
     (sampleIter.next).2.iter.start = sampleIter.start ∧
     (sampleIter.next).2.iter.step = sampleIter.step ∧
     (sampleIter.next).2.id = some sampleEntry.sid ∧
     (sampleIter.next).2.tags = some sampleEntry.stags ∧
     (sampleIter.next).2.current =
       ((sampleIter.next).2.iter, some sampleEntry.sid, some sampleEntry.stags)) :=
  ⟨⟨rfl, rfl, rfl⟩, c5_next_success sampleIter sampleEntry [] rfl rfl rfl⟩

/-- C6: from any state whose recorder is not yet released, two `Close()`
calls perform exactly one arena release — the second call performs no
further release — and the second call returns a nil error. -/
theorem c6_double_close_idempotent (b : SeriesBlockIter)
    (h : b.recorder.released = false) :
    ((((b.close).1).close).1).recorder.releaseCount = b.recorder.releaseCount + 1 ∧
    ((((b.close).1).close).1).recorder.releaseCount =
      ((b.close).1).recorder.releaseCount ∧
    (((b.close).1).close).2 = none := by
  by_cases hf : b.iter.closed
  · simp [SeriesBlockIter.close, SeriesFrameIterator.close, Recorder.release,
          CrossBlockIterator.close, hf, h]
  · simp [SeriesBlockIter.close, SeriesFrameIterator.close, Recorder.release,
          CrossBlockIterator.close, hf, h]

/-- C6 witness: double close on a freshly constructed iterator. -/
theorem c6_double_close_idempotent_witness :
    sampleIter.recorder.released = false ∧
    (((((sampleIter.close).1).close).1).recorder.releaseCount =
       sampleIter.recorder.releaseCount + 1 ∧
     ((((sampleIter.close).1).close).1).recorder.releaseCount =
       ((sampleIter.close).1).recorder.releaseCount ∧
     (((sampleIter.close).1).close).2 = none) :=
  ⟨rfl, c6_double_close_idempotent sampleIter rfl⟩

/-- C7: the recorder backend is selected exactly once at construction from
`opts.UseArrow` (columnar iff the flag is set), and no subsequent operation
reassigns the recorder: `Next()` leaves the field untouched, `Current()`
and `Err()` are pure reads, and `Close()` mutates only the release state of
the same recorder object (its identity and backend are preserved). -/
theorem c7_recorder_selected_once (reader : CrossBlockReader) (opts : Options)
    (b : SeriesBlockIter) :
    (NewSeriesBlockIterator reader opts).1.recorder.columnar = opts.UseArrow ∧
    (NewSeriesBlockIterator reader opts).1.recorder.ident = recorderIdent ∧
    (b.next).2.recorder = b.recorder ∧
    b.current = (b.iter, b.id, b.tags) ∧
    b.errFn = b.err ∧
    (b.close).1.recorder.ident = b.recorder.ident ∧
    (b.close).1.recorder.columnar = b.recorder.columnar := by
  refine ⟨?_, ?_, ?_, rfl, rfl, ?_, ?_⟩
  · by_cases hu : opts.UseArrow <;>
      simp [NewSeriesBlockIterator, newDatapointRecorder, newFlatDatapointRecorder, hu]
  · by_cases hu : opts.UseArrow <;>
      simp [NewSeriesBlockIterator, newDatapointRecorder, newFlatDatapointRecorder, hu]
  · by_cases hg : (b.exhausted || b.err.isSome) = true
    · rw [next_of_latched b hg]
    · rcases hs : b.reader.series with _ | ⟨e, rest⟩ <;>
        simp [SeriesBlockIter.next, CrossBlockReader.next, hg, hs]
  · by_cases hf : b.iter.closed <;> by_cases hr : b.recorder.released <;>
      simp [SeriesBlockIter.close, SeriesFrameIterator.close, Recorder.release, hf, hr]
  · by_cases hf : b.iter.closed <;> by_cases hr : b.recorder.released <;>
      simp [SeriesBlockIter.close, SeriesFrameIterator.close, Recorder.release, hf, hr]

/-- C8: for configured start `T0`, step `S > 0` and any integer `k ≥ 0`, a
datapoint at `t = T0 + k*S` has frame index `k` — boundary inclusive on the
left — and never index `k - 1`. -/
theorem c8_boundary_inclusion (start step k : Int) (hstep : 0 < step) (hk : 0 ≤ k) :
    frameIndexQ start step (start + k * step) = k ∧
    frameIndexQ start step (start + k * step) ≠ k - 1 := by
  have h1 : frameIndexQ start step (start + k * step) = k := by
    unfold frameIndexQ
    rw [add_sub_cancel_left]
    exact Int.mul_ediv_cancel k (ne_of_gt hstep)
  refine ⟨h1, ?_⟩
  rw [h1]
  omega

/-- C8 witness: with start 5, step 10 and k = 3, the boundary datapoint at
35 lands in frame 3, not frame 2. -/
theorem c8_boundary_inclusion_witness :
    ((0 : Int) < 10 ∧ (0 : Int) ≤ 3) ∧
    (frameIndexQ 5 10 (5 + 3 * 10) = 3 ∧ frameIndexQ 5 10 (5 + 3 * 10) ≠ 3 - 1) :=
  ⟨by decide, c8_boundary_inclusion 5 10 3 (by decide) (by decide)⟩

/-- C9: `Close()` leaves the exhausted flag, the latched error, the current
id, the current tag iterator and the reader unchanged; `Next()` after
`Close()` returns the same boolean as `Next()` before it, and there is a
state from which `Next()` after `Close()` returns true. -/
theorem c9_close_not_terminal (b : SeriesBlockIter) :
    (b.close).1.exhausted = b.exhausted ∧
    (b.close).1.err = b.err ∧
    (b.close).1.id = b.id ∧
    (b.close).1.tags = b.tags ∧
    (b.close).1.reader = b.reader ∧
    (((b.close).1.next).1 = (b.next).1) ∧
    (∃ c : SeriesBlockIter, ((c.close).1.next).1 = true) := by
  have hpres : (b.close).1.exhausted = b.exhausted ∧ (b.close).1.err = b.err ∧
      (b.close).1.id = b.id ∧ (b.close).1.tags = b.tags ∧
      (b.close).1.reader = b.reader := by
    by_cases hf : b.iter.closed <;>
      simp [SeriesBlockIter.close, SeriesFrameIterator.close, CrossBlockIterator.close, hf]
  obtain ⟨h1, h2, h3, h4, h5⟩ := hpres
  refine ⟨h1, h2, h3, h4, h5, ?_, ⟨sampleIter, by decide⟩⟩
  by_cases hg : (b.exhausted || b.err.isSome) = true
  · have hg' : ((b.close).1.exhausted || (b.close).1.err.isSome) = true := by
      rw [h1, h2]; exact hg
    rw [next_of_latched b hg, next_of_latched _ hg']
  · have hg' : ¬ ((b.close).1.exhausted || (b.close).1.err.isSome) = true := by
      rw [h1, h2]; exact hg
    rcases hs : b.reader.series with _ | ⟨e, rest⟩ <;>
      · have hs' : (b.close).1.reader.series = b.reader.series := by rw [h5]
        rw [hs] at hs'
        simp [SeriesBlockIter.next, CrossBlockReader.next, hg, hg', hs, hs']

/-- C10: `Current()` is total: on a freshly constructed iterator it returns
the constructed frame iterator together with a nil id and nil tag iterator,
and after a `Next()` that returned false it returns the same triple as
before that call. -/
theorem c10_current_total (reader : CrossBlockReader) (opts : Options)
    (b : SeriesBlockIter) (h : (b.next).1 = false) :
    (NewSeriesBlockIterator reader opts).1.current =
      ((NewSeriesBlockIterator reader opts).1.iter, none, none) ∧
    (NewSeriesBlockIterator reader opts).1.iter =
      newSeriesFrameIterator frameIterIdent (NewSeriesBlockIterator reader opts).1.recorder ∧
    (b.next).2.current = b.current := by
  refine ⟨rfl, rfl, ?_⟩
  by_cases hg : (b.exhausted || b.err.isSome) = true
  · rw [next_of_latched b hg]
  · rcases hs : b.reader.series with _ | ⟨e, rest⟩
    · simp [SeriesBlockIter.next, CrossBlockReader.next, hg, hs, SeriesBlockIter.current]
    · exfalso
      simp [SeriesBlockIter.next, CrossBlockReader.next, hg, hs] at h

/-- C10 witness: on the iterator whose reader errors at once, `Next()`
returns false and `Current()` is unchanged; the fresh `Current()` triple is
the constructed frame iterator with nil id and tags. -/
theorem c10_current_total_witness :
    (erroredIter.next).1 = false ∧
    ((NewSeriesBlockIterator sampleReader sampleOpts).1.current =
       ((NewSeriesBlockIterator sampleReader sampleOpts).1.iter, none, none) ∧
     (NewSeriesBlockIterator sampleReader sampleOpts).1.iter =
       newSeriesFrameIterator frameIterIdent
         (NewSeriesBlockIterator sampleReader sampleOpts).1.recorder ∧
     (erroredIter.next).2.current = erroredIter.current) :=
  ⟨by decide, c10_current_total sampleReader sampleOpts erroredIter (by decide)⟩

end Tile
